import Mathlib

/-!
Verification of the polling engine and SSE stream decoder of the
eternalai typescript-sdk, as shallowly embedded Lean definitions.

The polling loops (`UncensoredAI.pollResult`, `Flux.pollResult`,
`Wan.pollResult`) share one shape and differ only in status vocabulary,
error-message construction and defaults; we embed that shape once
(`pollAux` / `pollResult`) parametrized by a `Provider` record holding the
per-provider data, and instantiate it three times, faithfully to each
source file.  `fetchStatus` (the source's `this.getResult`) is a network
call; it is embedded as a pure function `f : Nat → R` from the 1-based
attempt number to the response that call returns.  The observable side
effects of a run (status fetches, observer invocations, sleeps) are
collected in an event trace.
-/

namespace SDK

/-- One observable step of a polling run: a `getResult` network call for a
given attempt, an `onStatusUpdate` observer invocation carrying the raw
status string and the attempt number, or a sleep of `ms` milliseconds. -/
inductive PollEvent where
  | fetch (attempt : Nat)
  | update (raw : String) (attempt : Nat)
  | sleep (ms : Nat)
deriving DecidableEq

/-- How a polling run ends: normal return of the final response, a thrown
generation-failure `Error` with its message, or the thrown timeout `Error`
carrying the attempt budget. -/
inductive PollOutcome (R : Type) where
  | ok (r : R)
  | genFailed (msg : String)
  | timedOut (attempts : Nat)
deriving DecidableEq

/-- `PollingOptions` from the source: every field is optional, and the
destructuring defaults in `pollResult` replace only absent (undefined)
fields.  The observer callback is embedded by its presence bit; its
invocations are recorded in the trace. -/
structure PollingOptions where
  interval : Option Nat
  maxAttempts : Option Nat
  onStatusUpdate : Bool
deriving DecidableEq

/-- The per-provider data of a polling loop: how the raw status string is
read off a response, the success and failure literals it is compared to,
the message of the thrown generation-failure error, and the destructuring
defaults for `interval` and `maxAttempts`. -/
structure Provider (R : Type) where
  rawStatus : R → String
  succStatus : String
  failStatus : String
  failMsg : R → String
  defaultInterval : Nat
  defaultMaxAttempts : Nat

/-- The `for (let attempt = 1; attempt <= maxAttempts; attempt++)` loop of
`pollResult`, entered at loop counter `attempt`.  Per iteration: call
`getResult` (`f attempt`), invoke the observer if present, return on the
success literal, throw on the failure literal, otherwise sleep if `attempt
< maxAttempts` and continue; after the loop, throw the timeout error. -/
def pollAux {R : Type} (P : Provider R) (f : Nat → R) (interval mx : Nat)
    (cb : Bool) (attempt : Nat) : PollOutcome R × List PollEvent :=
  if h : attempt ≤ mx then
    let result := f attempt
    let st := P.rawStatus result
    let evs := PollEvent.fetch attempt ::
      (if cb then [PollEvent.update st attempt] else [])
    if st = P.succStatus then
      (PollOutcome.ok result, evs)
    else if st = P.failStatus then
      (PollOutcome.genFailed (P.failMsg result), evs)
    else
      let pre := if attempt < mx then [PollEvent.sleep interval] else []
      let rest := pollAux P f interval mx cb (attempt + 1)
      (rest.1, evs ++ pre ++ rest.2)
  else
    (PollOutcome.timedOut mx, [])
termination_by mx + 1 - attempt
decreasing_by omega

/-- `pollResult` of a provider: resolve the destructuring defaults (an
explicitly passed value, `0` included, is kept; only an absent field gets
the default) and run the loop from attempt 1. -/
def pollResult {R : Type} (P : Provider R) (opts : PollingOptions)
    (f : Nat → R) : PollOutcome R × List PollEvent :=
  pollAux P f (opts.interval.getD P.defaultInterval)
    (opts.maxAttempts.getD P.defaultMaxAttempts) opts.onStatusUpdate 1

/-- `UncensoredResultResponse` from `uncensored-ai.ts`: the polling
endpoint's response shape.  It has no error-detail field. -/
structure UncensoredResultResponse where
  request_id : String
  status : String
  result_url : String
deriving DecidableEq

/-- `UncensoredAI.pollResult`'s provider data, from `uncensored-ai.ts`:
raw status is `result.status`; `'success'` returns, `'failed'` throws
`UncensoredAI request failed: ${result.status}`; defaults 3000 ms / 60
attempts.  (The declared vocabulary also contains `'error'`, which this
loop never tests.) -/
def uncensoredProvider : Provider UncensoredResultResponse where
  rawStatus r := r.status
  succStatus := "success"
  failStatus := "failed"
  failMsg r := "UncensoredAI request failed: " ++ r.status
  defaultInterval := 3000
  defaultMaxAttempts := 60

/-- `UncensoredAI.pollResult` as a run over the getResult responses. -/
def uncensoredPoll (opts : PollingOptions) (f : Nat → UncensoredResultResponse) :
    PollOutcome UncensoredResultResponse × List PollEvent :=
  pollResult uncensoredProvider opts f

/-- The `result?` payload of `FluxResultResponse` (JS numbers that are
only carried, never computed with, are embedded as `Int`). -/
structure FluxResult where
  start_time : Option Int
  prompt : Option String
  seed : Option Int
  sample : Option String
deriving DecidableEq

/-- `FluxResultResponse` from the Flux service (the untyped `progress` /
`details` passthrough fields carry no behavior and are not read by any
claim; they are omitted). -/
structure FluxResultResponse where
  id : String
  status : String
  result : Option FluxResult
  preview : Option String
  error : Option String
deriving DecidableEq

/-- `result.error || 'Unknown error'` — JS `||` falls back on `undefined`
and on the empty string alike. -/
def fluxErrorText (r : FluxResultResponse) : String :=
  match r.error with
  | none => "Unknown error"
  | some e => if e = "" then "Unknown error" else e

/-- `Flux.pollResult`'s provider data: raw status is `result.status`;
`'Ready'` returns, `'Failed'` throws `Flux image generation failed:
${message}` with `message = result.error || 'Unknown error'`; defaults
3000 ms / 60 attempts. -/
def fluxProvider : Provider FluxResultResponse where
  rawStatus r := r.status
  succStatus := "Ready"
  failStatus := "Failed"
  failMsg r := "Flux image generation failed: " ++ fluxErrorText r
  defaultInterval := 3000
  defaultMaxAttempts := 60

/-- `Flux.pollResult` as a run over the getResult responses. -/
def fluxPoll (opts : PollingOptions) (f : Nat → FluxResultResponse) :
    PollOutcome FluxResultResponse × List PollEvent :=
  pollResult fluxProvider opts f

/-- `task_metrics` payload of the Wan output. -/
structure WanTaskMetrics where
  TOTAL : Nat
  SUCCEEDED : Nat
  FAILED : Nat
deriving DecidableEq

/-- One element of the Wan `results` array. -/
structure WanUrl where
  url : String
deriving DecidableEq

/-- The `output?` payload of `WanResultResponse`. -/
structure WanOutput where
  task_id : String
  task_status : String
  submit_time : Option String
  scheduled_time : Option String
  end_time : Option String
  orig_prompt : Option String
  actual_prompt : Option String
  video_url : Option String
  task_metrics : Option WanTaskMetrics
  results : Option (List WanUrl)
  code : Option String
  message : Option String
deriving DecidableEq

/-- The `usage?` payload of `WanResultResponse`. -/
structure WanUsage where
  duration : Int
  video_count : Int
  SR : Int
deriving DecidableEq

/-- `WanResultResponse` from the Wan service. -/
structure WanResultResponse where
  output : Option WanOutput
  usage : Option WanUsage
  request_id : Option String
deriving DecidableEq

/-- `result.output?.task_status || 'UNKNOWN'` — absent `output` (or an
empty status string, by JS `||`) yields `'UNKNOWN'`. -/
def wanStatus (r : WanResultResponse) : String :=
  match r.output with
  | none => "UNKNOWN"
  | some o => if o.task_status = "" then "UNKNOWN" else o.task_status

/-- `result.output?.message || 'Unknown error'`. -/
def wanMessage (r : WanResultResponse) : String :=
  match r.output with
  | none => "Unknown error"
  | some o =>
    match o.message with
    | none => "Unknown error"
    | some m => if m = "" then "Unknown error" else m

/-- `Wan.pollResult`'s provider data: raw status is
`result.output?.task_status || 'UNKNOWN'`; `'SUCCEEDED'` returns,
`'FAILED'` throws `Wan video generation failed: ${message}`; defaults
5000 ms / 120 attempts. -/
def wanProvider : Provider WanResultResponse where
  rawStatus := wanStatus
  succStatus := "SUCCEEDED"
  failStatus := "FAILED"
  failMsg r := "Wan video generation failed: " ++ wanMessage r
  defaultInterval := 5000
  defaultMaxAttempts := 120

/-- `Wan.pollResult` as a run over the getResult responses. -/
def wanPoll (opts : PollingOptions) (f : Nat → WanResultResponse) :
    PollOutcome WanResultResponse × List PollEvent :=
  pollResult wanProvider opts f

/-! ### Trace anatomy -/

/-- The events of one loop iteration up to and including the observer
invocation: the `getResult` call for attempt `k`, then the observer
invocation if a callback was supplied. -/
def attemptEvents {R : Type} (P : Provider R) (f : Nat → R) (cb : Bool)
    (k : Nat) : List PollEvent :=
  PollEvent.fetch k :: (if cb then [PollEvent.update (P.rawStatus (f k)) k] else [])

/-- The events of `n` consecutive non-terminal iterations starting at
attempt `a`, each followed by its inter-attempt sleep. -/
def sleptBlocks {R : Type} (P : Provider R) (f : Nat → R) (cb : Bool)
    (i a n : Nat) : List PollEvent :=
  (List.range' a n).flatMap (fun k => attemptEvents P f cb k ++ [PollEvent.sleep i])

/-- Number of `getResult` calls recorded in a trace. -/
def fetchCount : List PollEvent → Nat
  | [] => 0
  | PollEvent.fetch _ :: t => fetchCount t + 1
  | PollEvent.update _ _ :: t => fetchCount t
  | PollEvent.sleep _ :: t => fetchCount t

/-- The sleep durations recorded in a trace, in order. -/
def sleepList : List PollEvent → List Nat
  | [] => []
  | PollEvent.sleep ms :: t => ms :: sleepList t
  | PollEvent.fetch _ :: t => sleepList t
  | PollEvent.update _ _ :: t => sleepList t

/-- The observer invocations recorded in a trace, in order, as (raw
status, attempt) pairs. -/
def updateList : List PollEvent → List (String × Nat)
  | [] => []
  | PollEvent.update s k :: t => (s, k) :: updateList t
  | PollEvent.fetch _ :: t => updateList t
  | PollEvent.sleep _ :: t => updateList t

/-- A response whose raw status is neither the provider's success literal
nor its failure literal, i.e. one the loop keeps polling on. -/
def nonTerminal {R : Type} (P : Provider R) (r : R) : Prop :=
  P.rawStatus r ≠ P.succStatus ∧ P.rawStatus r ≠ P.failStatus

/-- The loop finishes at attempt `k`: all earlier attempts were
non-terminal, and attempt `k` is terminal or is the last allowed one. -/
def finishesAt {R : Type} (P : Provider R) (f : Nat → R) (mx k : Nat) : Prop :=
  1 ≤ k ∧ k ≤ mx ∧ (∀ j, 1 ≤ j → j < k → nonTerminal P (f j)) ∧
    (¬ nonTerminal P (f k) ∨ k = mx)

/-! ### Concrete responses used as witness inputs -/

/-- A non-terminal UncensoredAI response. -/
def uncPending : UncensoredResultResponse :=
  ⟨"req-1", "pending", ""⟩

/-- A successful UncensoredAI response. -/
def uncSuccess : UncensoredResultResponse :=
  ⟨"req-1", "success", "https://img.example/a.png"⟩

/-- A failed UncensoredAI response. -/
def uncFailed : UncensoredResultResponse :=
  ⟨"req-1", "failed", ""⟩

/-- An UncensoredAI response with the declared status `'error'`, which
`pollResult` never tests for. -/
def uncError : UncensoredResultResponse :=
  ⟨"req-1", "error", ""⟩

/-- A non-terminal Flux response. -/
def fluxPending : FluxResultResponse :=
  ⟨"id-1", "Pending", none, none, none⟩

/-- A ready Flux response. -/
def fluxReady : FluxResultResponse :=
  ⟨"id-1", "Ready", some ⟨none, none, none, some "https://img.example/f.png"⟩,
    none, none⟩

/-- A failed Flux response carrying an error detail. -/
def fluxFailed : FluxResultResponse :=
  ⟨"id-1", "Failed", none, none, some "Moderated: output blocked"⟩

/-- A non-terminal Wan response. -/
def wanPendingR : WanResultResponse :=
  ⟨some ⟨"task-1", "PENDING", none, none, none, none, none, none, none,
    none, none, none⟩, none, some "w-1"⟩

/-- A succeeded Wan response. -/
def wanSucceededR : WanResultResponse :=
  ⟨some ⟨"task-1", "SUCCEEDED", none, none, none, none, none,
    some "https://v.example/v.mp4", none, none, none, none⟩, none, some "w-1"⟩

/-- A failed Wan response carrying an error message. -/
def wanFailedR : WanResultResponse :=
  ⟨some ⟨"task-1", "FAILED", none, none, none, none, none, none, none,
    none, some "InvalidParameter", some "The input image is invalid"⟩,
    none, some "w-1"⟩

/-! ### Stream decoder

`Chat.handleStreamingResponse` (`chat.ts`) and `Glm.streamContent`
(`glm.ts`) contain the identical decoding loop: read byte chunks, decode
them incrementally as UTF-8 text (`TextDecoder` with `stream: true`,
which carries an incomplete trailing multi-byte sequence to the next
chunk), append to a carry-over string buffer, split the buffer on `'\n'`
keeping the final fragment as the new buffer, and for each complete line:
trim, skip empty lines and the `data: [DONE]` sentinel, and for
`data: `-prefixed lines `JSON.parse` the remainder inside `try`/`catch`,
yielding the parsed chunk on success and silently skipping on failure.
We embed the loop once.  `JSON.parse` + `try`/`catch` is a platform
function, embedded as a parameter `parse : List Char → Option α`; the
events of a whole iteration are the in-order concatenation of the events
each chunk's complete lines produce. -/

/-- U+FFFD, the replacement character emitted by a non-fatal
`TextDecoder` for invalid byte sequences. -/
def replacementChar : Char := Char.ofNat 0xFFFD

/-- Continuation-byte count demanded by a UTF-8 lead byte (0 for ASCII
and for invalid leads). -/
def utf8Needed (b : Nat) : Nat :=
  if b < 0x80 then 0
  else if b < 0xC0 then 0
  else if b < 0xE0 then 1
  else if b < 0xF0 then 2
  else if b < 0xF8 then 3
  else 0

/-- Whether a byte is a UTF-8 continuation byte (10xxxxxx). -/
def utf8IsCont (b : Nat) : Bool :=
  decide (0x80 ≤ b ∧ b < 0xC0)

/-- Assemble the scalar value of a complete UTF-8 sequence. -/
def utf8Scalar (lead : Nat) (conts : List Nat) : Nat :=
  conts.foldl (fun acc c => acc * 64 + c % 64)
    (lead % (if lead < 0xE0 then 32 else if lead < 0xF0 then 16 else 8))

/-- Feed one byte to the decoder with no pending sequence. -/
def utf8Start (b : Nat) : List Char × List Nat :=
  if b < 0x80 then ([Char.ofNat b], [])
  else if utf8Needed b = 0 then ([replacementChar], [])
  else ([], [b])

/-- Feed one byte to the incremental UTF-8 decoder: `pending` holds the
bytes of an incomplete sequence carried over so far; returns the emitted
characters and the new pending bytes. -/
def utf8Feed : List Nat → Nat → List Char × List Nat
  | [], b => utf8Start b
  | lead :: conts, b =>
    if utf8IsCont b then
      if conts.length + 1 = utf8Needed lead then
        ([Char.ofNat (utf8Scalar lead (conts ++ [b]))], [])
      else ([], lead :: (conts ++ [b]))
    else
      (replacementChar :: (utf8Start b).1, (utf8Start b).2)

/-- `decoder.decode(value, { stream: true })`: decode one chunk given the
carried-over pending bytes, returning the text and the new pending
bytes (an incomplete trailing sequence is carried, not corrupted). -/
def utf8DecodeChunk (pending : List Nat) (chunk : List Nat) :
    List Char × List Nat :=
  chunk.foldl (fun acc b =>
    let r := utf8Feed acc.2 b
    (acc.1 ++ r.1, r.2)) (([] : List Char), pending)

/-- `String.prototype.split('\n')`: the parts between newline
characters; one more part than there are newlines, empty parts kept. -/
def splitNl : List Char → List (List Char)
  | [] => [[]]
  | c :: cs =>
    if c = '\n' then [] :: splitNl cs
    else
      match splitNl cs with
      | [] => [[c]]
      | h :: t => (c :: h) :: t

/-- JS `String.prototype.trim` whitespace test, for the characters that
can occur here. -/
def isWsChar (c : Char) : Bool :=
  c = ' ' || c = '\t' || c = '\n' || c = '\r' || c = '\x0b' || c = '\x0c'

/-- `line.trim()`. -/
def trimChars (l : List Char) : List Char :=
  ((l.dropWhile isWsChar).reverse.dropWhile isWsChar).reverse

/-- The frame marker `data: ` (with its trailing space). -/
def dataMarker : List Char := ("data: ").toList

/-- The stream-termination sentinel line. -/
def doneLine : List Char := ("data: [DONE]").toList

/-- Per-line processing of a complete line, up to the `JSON.parse`: trim;
skip if empty or exactly the sentinel; if the trimmed line starts with
`data: `, the payload is the line with the 6-character marker sliced
off; other lines are ignored. -/
def lineData (line : List Char) : Option (List Char) :=
  let t := trimChars line
  if t = [] then none
  else if t = doneLine then none
  else if dataMarker.isPrefixOf t then some (t.drop 6)
  else none

/-- The loop state surviving across chunks: the `TextDecoder`'s pending
bytes and the carry-over line buffer. -/
structure DecodeState where
  pending : List Nat
  buffer : List Char
deriving DecidableEq

/-- One iteration of the `while` loop for one byte chunk: decode the
chunk, append to the buffer, split on newlines, keep the last fragment as
the new buffer (`buffer = lines.pop() || ''`), and process the complete
lines in order, collecting their `data: ` payloads. -/
def decodeStep (st : DecodeState) (chunk : List Nat) :
    List (List Char) × DecodeState :=
  let d := utf8DecodeChunk st.pending chunk
  let parts := splitNl (st.buffer ++ d.1)
  (parts.dropLast.filterMap lineData, ⟨d.2, parts.getLastD []⟩)

/-- The whole read loop over the chunk sequence, from a given state; at
end of stream (`done`) the loop breaks, leaving the final state (whose
trailing partial line is discarded, never processed). -/
def decodeRun (st : DecodeState) : List (List Nat) → List (List Char) × DecodeState
  | [] => ([], st)
  | c :: cs =>
    let r := decodeStep st c
    let rest := decodeRun r.2 cs
    (r.1 ++ rest.1, rest.2)

/-- The `data: ` payload strings a whole stream produces, in order,
starting from the initial state (empty pending bytes, empty buffer). -/
def dataStrings (chunks : List (List Nat)) : List (List Char) :=
  (decodeRun ⟨[], []⟩ chunks).1

/-- The decoded events of a whole stream: each payload is fed to
`JSON.parse` inside `try`/`catch` (embedded as `parse`); a successful
parse yields the chunk, a failed parse is silently skipped and iteration
continues.  The decoder itself raises nothing: this is a total
function. -/
def decodeEvents {α : Type} (parse : List Char → Option α)
    (chunks : List (List Nat)) : List α :=
  (dataStrings chunks).filterMap parse

/-- UTF-8 encoding of one character (the wire encoding of the tests'
byte streams). -/
def encodeChar (c : Char) : List Nat :=
  let n := c.toNat
  if n < 0x80 then [n]
  else if n < 0x800 then [0xC0 + n / 64, 0x80 + n % 64]
  else if n < 0x10000 then
    [0xE0 + n / 4096, 0x80 + (n / 64) % 64, 0x80 + n % 64]
  else
    [0xF0 + n / 262144, 0x80 + (n / 4096) % 64, 0x80 + (n / 64) % 64,
      0x80 + n % 64]

/-- UTF-8 encoding of a character sequence. -/
def encodeStr (s : List Char) : List Nat := s.flatMap encodeChar

/-- The byte sequence of C6's frame: an ASCII `data: ` line holding the
JSON object with field `a` set to `1`, newline-terminated. -/
def exBytes : List Nat := encodeStr ("data: \x7b\"a\":1\x7d\n").toList

/-- Its payload string. -/
def exJson : List Char := ("\x7b\"a\":1\x7d").toList

/-- A `data: ` frame whose JSON payload contains the two-byte UTF-8
character `é`, so a chunk split can fall inside a multi-byte
character. -/
def exBytesMB : List Nat := encodeStr ("data: \x7b\"a\":\"é\"\x7d\n").toList

/-- Its payload string. -/
def exJsonMB : List Char := ("\x7b\"a\":\"é\"\x7d").toList

/-- A second well-formed payload string, used by C7's stream. -/
def exJson2 : List Char := ("\x7b\"b\":2\x7d").toList

/-- The malformed payload of C7's middle line. -/
def exBad : List Char := ("\x7bnot json").toList

/-- C7's stream: a well-formed `data: ` line, a malformed one, and
another well-formed one. -/
def exStream7 : List Nat :=
  encodeStr ("data: \x7b\"a\":1\x7d\ndata: \x7bnot json\ndata: \x7b\"b\":2\x7d\n").toList

/-- C8's stream: a `data: ` frame with no terminating newline. -/
def exPartial : List Nat := encodeStr ("data: \x7b\"a\":1\x7d").toList

/-- A concrete stand-in for `JSON.parse` used by witnesses: recognizes
the three payloads above and rejects everything else. -/
def parseEx (s : List Char) : Option Nat :=
  if s = exJson then some 1
  else if s = exJsonMB then some 2
  else if s = exJson2 then some 3
  else none

/-- How the consumer of the decoded stream ends its iteration: draining
it, abandoning it after `k` events, or raising after `k` events. -/
inductive ConsumerMode where
  | complete
  | abandonAfter (k : Nat)
  | throwAfter (k : Nat)
deriving DecidableEq

/-- Observable resource actions of one iteration of the decoded
stream. -/
inductive StreamAction (α : Type) where
  | acquire
  | yielded (e : α)
  | release
deriving DecidableEq

/-- The action trace of one full iteration of `handleStreamingResponse` /
`streamContent`: `response.body.getReader()` acquires the reader; the
generator body yields the decoded events lazily; the loop sits inside
`try … finally { reader.releaseLock() }`, and per the async-generator
protocol the `finally` block runs on every exit of the body — normal
completion, `return()` injected by the consumer abandoning the loop, or
an exception propagating out — so the trace ends with the release. -/
def streamRun {α : Type} (parse : List Char → Option α)
    (chunks : List (List Nat)) (mode : ConsumerMode) : List (StreamAction α) :=
  let events := decodeEvents parse chunks
  let delivered := match mode with
    | ConsumerMode.complete => events
    | ConsumerMode.abandonAfter k => events.take k
    | ConsumerMode.throwAfter k => events.take k
  StreamAction.acquire :: (delivered.map StreamAction.yielded) ++
    [StreamAction.release]

/-- Number of `releaseLock` actions in a trace. -/
def releaseCount {α : Type} : List (StreamAction α) → Nat
  | [] => 0
  | StreamAction.release :: t => releaseCount t + 1
  | StreamAction.acquire :: t => releaseCount t
  | StreamAction.yielded _ :: t => releaseCount t

theorem fetchCount_append (a b : List PollEvent) :
    fetchCount (a ++ b) = fetchCount a + fetchCount b := by
  induction a with
  | nil => simp [fetchCount]
  | cons x t ih => cases x <;> simp [fetchCount, ih] <;> omega

theorem sleepList_append (a b : List PollEvent) :
    sleepList (a ++ b) = sleepList a ++ sleepList b := by
  induction a with
  | nil => simp [sleepList]
  | cons x t ih => cases x <;> simp [sleepList, ih]

theorem updateList_append (a b : List PollEvent) :
    updateList (a ++ b) = updateList a ++ updateList b := by
  induction a with
  | nil => simp [updateList]
  | cons x t ih => cases x <;> simp [updateList, ih]

theorem fetchCount_attemptEvents {R : Type} (P : Provider R) (f : Nat → R)
    (cb : Bool) (k : Nat) : fetchCount (attemptEvents P f cb k) = 1 := by
  cases cb <;> simp [fetchCount, attemptEvents]

theorem sleepList_attemptEvents {R : Type} (P : Provider R) (f : Nat → R)
    (cb : Bool) (k : Nat) : sleepList (attemptEvents P f cb k) = [] := by
  cases cb <;> simp [sleepList, attemptEvents]

theorem updateList_attemptEvents {R : Type} (P : Provider R) (f : Nat → R)
    (cb : Bool) (k : Nat) :
    updateList (attemptEvents P f cb k) =
      if cb then [(P.rawStatus (f k), k)] else [] := by
  cases cb <;> simp [updateList, attemptEvents]

theorem sleptBlocks_succ {R : Type} (P : Provider R) (f : Nat → R)
    (cb : Bool) (i a m : Nat) :
    sleptBlocks P f cb i a (m + 1) =
      (attemptEvents P f cb a ++ [PollEvent.sleep i]) ++
        sleptBlocks P f cb i (a + 1) m := by
  rw [sleptBlocks, List.range'_succ, List.flatMap_cons]
  rfl

theorem fetchCount_sleptBlocks {R : Type} (P : Provider R) (f : Nat → R)
    (cb : Bool) (i : Nat) : ∀ n a, fetchCount (sleptBlocks P f cb i a n) = n := by
  intro n
  induction n with
  | zero => intro a; simp [sleptBlocks, fetchCount]
  | succ m ih =>
    intro a
    rw [sleptBlocks_succ, fetchCount_append, fetchCount_append,
      fetchCount_attemptEvents, ih (a + 1)]
    simp [fetchCount]
    omega

theorem sleepList_sleptBlocks {R : Type} (P : Provider R) (f : Nat → R)
    (cb : Bool) (i : Nat) : ∀ n a,
    sleepList (sleptBlocks P f cb i a n) = List.replicate n i := by
  intro n
  induction n with
  | zero => intro a; simp [sleptBlocks, sleepList]
  | succ m ih =>
    intro a
    rw [sleptBlocks_succ, sleepList_append, sleepList_append,
      sleepList_attemptEvents, ih (a + 1)]
    simp [sleepList, List.replicate_succ]

theorem updateList_sleptBlocks {R : Type} (P : Provider R) (f : Nat → R)
    (i : Nat) : ∀ n a,
    updateList (sleptBlocks P f true i a n) =
      (List.range' a n).map (fun k => (P.rawStatus (f k), k)) := by
  intro n
  induction n with
  | zero => intro a; simp [sleptBlocks, updateList]
  | succ m ih =>
    intro a
    rw [sleptBlocks_succ, updateList_append, updateList_append,
      updateList_attemptEvents, ih (a + 1)]
    simp [updateList, List.range'_succ]

/-! ### Unfolding lemmas for the loop -/

/-- A non-terminal status on an attempt before the last: record the
events, sleep, continue with the next attempt. -/
theorem pollAux_step_pending {R : Type} (P : Provider R) (f : Nat → R)
    (i mx cb : _) (a : Nat) (hlt : a < mx)
    (hs : P.rawStatus (f a) ≠ P.succStatus)
    (hf : P.rawStatus (f a) ≠ P.failStatus) :
    pollAux P f i mx cb a =
      ((pollAux P f i mx cb (a + 1)).1,
        attemptEvents P f cb a ++ PollEvent.sleep i ::
          (pollAux P f i mx cb (a + 1)).2) := by
  rw [pollAux]
  simp only [dif_pos (Nat.le_of_lt hlt), if_neg hs, if_neg hf, if_pos hlt]
  rw [attemptEvents]
  simp

/-- Success on an attempt within the budget: return the response at once. -/
theorem pollAux_step_succ {R : Type} (P : Provider R) (f : Nat → R)
    (i mx cb : _) (a : Nat) (ha : a ≤ mx)
    (hs : P.rawStatus (f a) = P.succStatus) :
    pollAux P f i mx cb a = (PollOutcome.ok (f a), attemptEvents P f cb a) := by
  rw [pollAux]
  simp only [dif_pos ha, if_pos hs]
  rfl

/-- The failure literal on an attempt within the budget: throw at once. -/
theorem pollAux_step_fail {R : Type} (P : Provider R) (f : Nat → R)
    (i mx cb : _) (a : Nat) (ha : a ≤ mx)
    (hs : P.rawStatus (f a) ≠ P.succStatus)
    (hf : P.rawStatus (f a) = P.failStatus) :
    pollAux P f i mx cb a =
      (PollOutcome.genFailed (P.failMsg (f a)), attemptEvents P f cb a) := by
  rw [pollAux]
  simp only [dif_pos ha, if_neg hs, if_pos hf]
  rfl

/-- A non-terminal status on the last allowed attempt: no sleep, the loop
exits and the timeout error is thrown. -/
theorem pollAux_step_last {R : Type} (P : Provider R) (f : Nat → R)
    (i cb : _) (mx : Nat)
    (hs : P.rawStatus (f mx) ≠ P.succStatus)
    (hf : P.rawStatus (f mx) ≠ P.failStatus) :
    pollAux P f i mx cb mx =
      (PollOutcome.timedOut mx, attemptEvents P f cb mx) := by
  have h2 : pollAux P f i mx cb (mx + 1) = (PollOutcome.timedOut mx, []) := by
    rw [pollAux]
    simp only [dif_neg (by omega : ¬ mx + 1 ≤ mx)]
  rw [pollAux]
  simp only [dif_pos (Nat.le_refl mx), if_neg hs, if_neg hf,
    if_neg (Nat.lt_irrefl mx), h2]
  rw [attemptEvents]
  simp

/-- Running the loop across `n` consecutive non-terminal attempts:
the trace accumulates `n` slept blocks and the run continues at
attempt `a + n`. -/
theorem pollAux_skip {R : Type} (P : Provider R) (f : Nat → R)
    (i mx cb : _) : ∀ (n a : Nat), a + n ≤ mx →
    (∀ k, a ≤ k → k < a + n →
      P.rawStatus (f k) ≠ P.succStatus ∧ P.rawStatus (f k) ≠ P.failStatus) →
    pollAux P f i mx cb a =
      ((pollAux P f i mx cb (a + n)).1,
        sleptBlocks P f cb i a n ++ (pollAux P f i mx cb (a + n)).2) := by
  intro n
  induction n with
  | zero =>
    intro a _ _
    simp [sleptBlocks]
  | succ m ih =>
    intro a hle hnt
    have hk := hnt a (Nat.le_refl a) (by omega)
    have hstep := pollAux_step_pending P f i mx cb a (by omega) hk.1 hk.2
    have hrest := ih (a + 1) (by omega) (by
      intro k hk1 hk2
      exact hnt k (by omega) (by omega))
    rw [hstep, hrest]
    have hidx : a + 1 + m = a + (m + 1) := by omega
    rw [hidx, sleptBlocks_succ]
    simp

/-! ### Full-run characterizations -/

/-- Every status non-terminal: the loop runs out its whole budget, throws
the timeout error carrying `maxAttempts`, and its trace is `maxAttempts`
attempt blocks with a sleep after each but the last. -/
theorem pollResult_timeout {R : Type} (P : Provider R) (opts : PollingOptions)
    (f : Nat → R) (hN : 1 ≤ opts.maxAttempts.getD P.defaultMaxAttempts)
    (hpend : ∀ k, nonTerminal P (f k)) :
    pollResult P opts f =
      (PollOutcome.timedOut (opts.maxAttempts.getD P.defaultMaxAttempts),
        sleptBlocks P f opts.onStatusUpdate (opts.interval.getD P.defaultInterval)
          1 (opts.maxAttempts.getD P.defaultMaxAttempts - 1) ++
        attemptEvents P f opts.onStatusUpdate
          (opts.maxAttempts.getD P.defaultMaxAttempts)) := by
  have hskip := pollAux_skip P f (opts.interval.getD P.defaultInterval)
    (opts.maxAttempts.getD P.defaultMaxAttempts) opts.onStatusUpdate
    (opts.maxAttempts.getD P.defaultMaxAttempts - 1) 1 (by omega)
    (fun k _ _ => hpend k)
  have hone : 1 + (opts.maxAttempts.getD P.defaultMaxAttempts - 1) =
      opts.maxAttempts.getD P.defaultMaxAttempts := by omega
  rw [hone] at hskip
  have hlast := pollAux_step_last P f (opts.interval.getD P.defaultInterval)
    opts.onStatusUpdate (opts.maxAttempts.getD P.defaultMaxAttempts)
    (hpend _).1 (hpend _).2
  rw [pollResult, hskip, hlast]

/-- First success at attempt `k` within the budget: the loop returns that
response, its trace is `k - 1` slept blocks and the `k`-th attempt block,
with no event after it. -/
theorem pollResult_succ_at {R : Type} (P : Provider R) (opts : PollingOptions)
    (f : Nat → R) (k : Nat) (hk1 : 1 ≤ k)
    (hkN : k ≤ opts.maxAttempts.getD P.defaultMaxAttempts)
    (hpre : ∀ j, 1 ≤ j → j < k → nonTerminal P (f j))
    (hs : P.rawStatus (f k) = P.succStatus) :
    pollResult P opts f =
      (PollOutcome.ok (f k),
        sleptBlocks P f opts.onStatusUpdate (opts.interval.getD P.defaultInterval)
          1 (k - 1) ++ attemptEvents P f opts.onStatusUpdate k) := by
  have hskip := pollAux_skip P f (opts.interval.getD P.defaultInterval)
    (opts.maxAttempts.getD P.defaultMaxAttempts) opts.onStatusUpdate
    (k - 1) 1 (by omega) (fun j hj1 hj2 => hpre j hj1 (by omega))
  have hone : 1 + (k - 1) = k := by omega
  rw [hone] at hskip
  have hstep := pollAux_step_succ P f (opts.interval.getD P.defaultInterval)
    (opts.maxAttempts.getD P.defaultMaxAttempts) opts.onStatusUpdate k hkN hs
  rw [pollResult, hskip, hstep]

/-- First occurrence of the failure literal at attempt `k` within the
budget: the loop throws the provider's generation-failure error built from
that response, after exactly `k` fetches and no further sleep. -/
theorem pollResult_fail_at {R : Type} (P : Provider R) (opts : PollingOptions)
    (f : Nat → R) (k : Nat) (hk1 : 1 ≤ k)
    (hkN : k ≤ opts.maxAttempts.getD P.defaultMaxAttempts)
    (hpre : ∀ j, 1 ≤ j → j < k → nonTerminal P (f j))
    (hs : P.rawStatus (f k) ≠ P.succStatus)
    (hf : P.rawStatus (f k) = P.failStatus) :
    pollResult P opts f =
      (PollOutcome.genFailed (P.failMsg (f k)),
        sleptBlocks P f opts.onStatusUpdate (opts.interval.getD P.defaultInterval)
          1 (k - 1) ++ attemptEvents P f opts.onStatusUpdate k) := by
  have hskip := pollAux_skip P f (opts.interval.getD P.defaultInterval)
    (opts.maxAttempts.getD P.defaultMaxAttempts) opts.onStatusUpdate
    (k - 1) 1 (by omega) (fun j hj1 hj2 => hpre j hj1 (by omega))
  have hone : 1 + (k - 1) = k := by omega
  rw [hone] at hskip
  have hstep := pollAux_step_fail P f (opts.interval.getD P.defaultInterval)
    (opts.maxAttempts.getD P.defaultMaxAttempts) opts.onStatusUpdate k hkN hs hf
  rw [pollResult, hskip, hstep]

/-- Whatever the mode in which the loop finishes at attempt `k`, its trace
is `k - 1` slept blocks followed by the `k`-th attempt block. -/
theorem pollResult_trace_finishesAt {R : Type} (P : Provider R)
    (opts : PollingOptions) (f : Nat → R) (k : Nat)
    (hfin : finishesAt P f (opts.maxAttempts.getD P.defaultMaxAttempts) k) :
    (pollResult P opts f).2 =
      sleptBlocks P f opts.onStatusUpdate (opts.interval.getD P.defaultInterval)
        1 (k - 1) ++ attemptEvents P f opts.onStatusUpdate k := by
  obtain ⟨hk1, hkN, hpre, hterm⟩ := hfin
  by_cases hs : P.rawStatus (f k) = P.succStatus
  · rw [pollResult_succ_at P opts f k hk1 hkN hpre hs]
  · by_cases hf : P.rawStatus (f k) = P.failStatus
    · rw [pollResult_fail_at P opts f k hk1 hkN hpre hs hf]
    · have hkmx : k = opts.maxAttempts.getD P.defaultMaxAttempts := by
        rcases hterm with h | h
        · exact absurd ⟨hs, hf⟩ h
        · exact h
      have hskip := pollAux_skip P f (opts.interval.getD P.defaultInterval)
        (opts.maxAttempts.getD P.defaultMaxAttempts) opts.onStatusUpdate
        (k - 1) 1 (by omega) (fun j hj1 hj2 => hpre j hj1 (by omega))
      have hone : 1 + (k - 1) = k := by omega
      rw [hone] at hskip
      rw [pollResult, hskip]
      rw [hkmx] at hs hf ⊢
      rw [pollAux_step_last P f (opts.interval.getD P.defaultInterval)
        opts.onStatusUpdate (opts.maxAttempts.getD P.defaultMaxAttempts) hs hf]

/-- Timeout run with its trace statistics: `N` fetches, `N - 1` sleeps of
the configured interval, in between attempts only. -/
theorem pollResult_timeout_full {R : Type} (P : Provider R)
    (opts : PollingOptions) (f : Nat → R)
    (hN : 1 ≤ opts.maxAttempts.getD P.defaultMaxAttempts)
    (hpend : ∀ k, nonTerminal P (f k)) :
    pollResult P opts f =
      (PollOutcome.timedOut (opts.maxAttempts.getD P.defaultMaxAttempts),
        sleptBlocks P f opts.onStatusUpdate (opts.interval.getD P.defaultInterval)
          1 (opts.maxAttempts.getD P.defaultMaxAttempts - 1) ++
        attemptEvents P f opts.onStatusUpdate
          (opts.maxAttempts.getD P.defaultMaxAttempts)) ∧
    fetchCount (pollResult P opts f).2 =
      opts.maxAttempts.getD P.defaultMaxAttempts ∧
    sleepList (pollResult P opts f).2 =
      List.replicate (opts.maxAttempts.getD P.defaultMaxAttempts - 1)
        (opts.interval.getD P.defaultInterval) := by
  have h1 := pollResult_timeout P opts f hN hpend
  refine ⟨h1, ?_, ?_⟩
  · rw [h1]
    simp [fetchCount_append, fetchCount_sleptBlocks, fetchCount_attemptEvents]
    omega
  · rw [h1]
    simp [sleepList_append, sleepList_sleptBlocks, sleepList_attemptEvents]

/-- Success run with its trace statistics: `k` fetches, `k - 1` sleeps,
none after the `k`-th attempt. -/
theorem pollResult_succ_full {R : Type} (P : Provider R)
    (opts : PollingOptions) (f : Nat → R) (k : Nat) (hk1 : 1 ≤ k)
    (hkN : k ≤ opts.maxAttempts.getD P.defaultMaxAttempts)
    (hpre : ∀ j, 1 ≤ j → j < k → nonTerminal P (f j))
    (hs : P.rawStatus (f k) = P.succStatus) :
    pollResult P opts f =
      (PollOutcome.ok (f k),
        sleptBlocks P f opts.onStatusUpdate (opts.interval.getD P.defaultInterval)
          1 (k - 1) ++ attemptEvents P f opts.onStatusUpdate k) ∧
    fetchCount (pollResult P opts f).2 = k ∧
    sleepList (pollResult P opts f).2 =
      List.replicate (k - 1) (opts.interval.getD P.defaultInterval) := by
  have h1 := pollResult_succ_at P opts f k hk1 hkN hpre hs
  refine ⟨h1, ?_, ?_⟩
  · rw [h1]
    simp [fetchCount_append, fetchCount_sleptBlocks, fetchCount_attemptEvents]
    omega
  · rw [h1]
    simp [sleepList_append, sleepList_sleptBlocks, sleepList_attemptEvents]

/-- Failure run with its trace statistics: `k` fetches, `k - 1` sleeps,
none after the `k`-th attempt. -/
theorem pollResult_fail_full {R : Type} (P : Provider R)
    (opts : PollingOptions) (f : Nat → R) (k : Nat) (hk1 : 1 ≤ k)
    (hkN : k ≤ opts.maxAttempts.getD P.defaultMaxAttempts)
    (hpre : ∀ j, 1 ≤ j → j < k → nonTerminal P (f j))
    (hs : P.rawStatus (f k) ≠ P.succStatus)
    (hf : P.rawStatus (f k) = P.failStatus) :
    pollResult P opts f =
      (PollOutcome.genFailed (P.failMsg (f k)),
        sleptBlocks P f opts.onStatusUpdate (opts.interval.getD P.defaultInterval)
          1 (k - 1) ++ attemptEvents P f opts.onStatusUpdate k) ∧
    fetchCount (pollResult P opts f).2 = k ∧
    sleepList (pollResult P opts f).2 =
      List.replicate (k - 1) (opts.interval.getD P.defaultInterval) := by
  have h1 := pollResult_fail_at P opts f k hk1 hkN hpre hs hf
  refine ⟨h1, ?_, ?_⟩
  · rw [h1]
    simp [fetchCount_append, fetchCount_sleptBlocks, fetchCount_attemptEvents]
    omega
  · rw [h1]
    simp [sleepList_append, sleepList_sleptBlocks, sleepList_attemptEvents]

/-- With a callback present, a run finishing at attempt `k` invokes the
observer once per attempt, in order `1, …, k`, each time with that
attempt's raw status string. -/
theorem pollResult_updates_full {R : Type} (P : Provider R)
    (opts : PollingOptions) (f : Nat → R) (k : Nat)
    (hcb : opts.onStatusUpdate = true)
    (hfin : finishesAt P f (opts.maxAttempts.getD P.defaultMaxAttempts) k) :
    updateList (pollResult P opts f).2 =
      (List.range' 1 k).map (fun j => (P.rawStatus (f j), j)) ∧
    (pollResult P opts f).2 =
      sleptBlocks P f opts.onStatusUpdate (opts.interval.getD P.defaultInterval)
        1 (k - 1) ++ attemptEvents P f opts.onStatusUpdate k := by
  have htr := pollResult_trace_finishesAt P opts f k hfin
  refine ⟨?_, htr⟩
  rw [htr, hcb, updateList_append, updateList_sleptBlocks,
    updateList_attemptEvents]
  have hk1 : 1 ≤ k := hfin.1
  have hsplit : List.range' 1 k = List.range' 1 (k - 1) ++ [1 + (k - 1)] := by
    have : k = (k - 1) + 1 := by omega
    rw [this, List.range'_concat]
    simp
  rw [hsplit]
  have hone : 1 + (k - 1) = k := by omega
  simp [hone]

/-- An explicitly passed `maxAttempts` of `0` is kept by the destructuring
default, so the loop guard fails at once: no fetch, no observer call, no
sleep, and the timeout error carries `0`. -/
theorem pollResult_zero {R : Type} (P : Provider R) (opts : PollingOptions)
    (f : Nat → R) (h : opts.maxAttempts.getD P.defaultMaxAttempts = 0) :
    pollResult P opts f = (PollOutcome.timedOut 0, []) := by
  rw [pollResult, h, pollAux]
  simp only [dif_neg (by omega : ¬ (1 : Nat) ≤ 0)]

/-- Zero-budget run with its (empty) trace statistics. -/
theorem pollResult_zero_full {R : Type} (P : Provider R) (o : PollingOptions)
    (f : Nat → R) (m : Nat) (hm : o.maxAttempts = some m) (hm1 : m < 1) :
    pollResult P o f = (PollOutcome.timedOut m, []) ∧
    fetchCount (pollResult P o f).2 = 0 ∧
    updateList (pollResult P o f).2 = [] ∧
    sleepList (pollResult P o f).2 = [] := by
  have hm0 : m = 0 := by omega
  subst hm0
  have hz := pollResult_zero P o f (by rw [hm]; rfl)
  refine ⟨hz, ?_, ?_, ?_⟩ <;> rw [hz] <;> rfl

/-! ### Claim theorems -/

/-- C1: for every `fetchStatus` that always returns a non-terminal status
and every policy whose resolved `maxAttempts` is `N ≥ 1`, each of
`UncensoredAI.pollResult`, `Flux.pollResult` and `Wan.pollResult` makes
exactly `N` `getResult` calls, sleeps exactly `N - 1` times of the
resolved interval (the explicit trace shows the final attempt block
carries no sleep), and throws the polling-timed-out error carrying `N`. -/
theorem C1_timeout_exactness :
    (∀ (f : Nat → UncensoredResultResponse) (o : PollingOptions),
      (∀ k, (f k).status ≠ "success" ∧ (f k).status ≠ "failed") →
      1 ≤ o.maxAttempts.getD 60 →
      uncensoredPoll o f =
        (PollOutcome.timedOut (o.maxAttempts.getD 60),
          sleptBlocks uncensoredProvider f o.onStatusUpdate (o.interval.getD 3000)
            1 (o.maxAttempts.getD 60 - 1) ++
          attemptEvents uncensoredProvider f o.onStatusUpdate (o.maxAttempts.getD 60)) ∧
      fetchCount (uncensoredPoll o f).2 = o.maxAttempts.getD 60 ∧
      sleepList (uncensoredPoll o f).2 =
        List.replicate (o.maxAttempts.getD 60 - 1) (o.interval.getD 3000)) ∧
    (∀ (f : Nat → FluxResultResponse) (o : PollingOptions),
      (∀ k, (f k).status ≠ "Ready" ∧ (f k).status ≠ "Failed") →
      1 ≤ o.maxAttempts.getD 60 →
      fluxPoll o f =
        (PollOutcome.timedOut (o.maxAttempts.getD 60),
          sleptBlocks fluxProvider f o.onStatusUpdate (o.interval.getD 3000)
            1 (o.maxAttempts.getD 60 - 1) ++
          attemptEvents fluxProvider f o.onStatusUpdate (o.maxAttempts.getD 60)) ∧
      fetchCount (fluxPoll o f).2 = o.maxAttempts.getD 60 ∧
      sleepList (fluxPoll o f).2 =
        List.replicate (o.maxAttempts.getD 60 - 1) (o.interval.getD 3000)) ∧
    (∀ (f : Nat → WanResultResponse) (o : PollingOptions),
      (∀ k, wanStatus (f k) ≠ "SUCCEEDED" ∧ wanStatus (f k) ≠ "FAILED") →
      1 ≤ o.maxAttempts.getD 120 →
      wanPoll o f =
        (PollOutcome.timedOut (o.maxAttempts.getD 120),
          sleptBlocks wanProvider f o.onStatusUpdate (o.interval.getD 5000)
            1 (o.maxAttempts.getD 120 - 1) ++
          attemptEvents wanProvider f o.onStatusUpdate (o.maxAttempts.getD 120)) ∧
      fetchCount (wanPoll o f).2 = o.maxAttempts.getD 120 ∧
      sleepList (wanPoll o f).2 =
        List.replicate (o.maxAttempts.getD 120 - 1) (o.interval.getD 5000)) := by
  refine ⟨?_, ?_, ?_⟩
  · intro f o hpend hN
    exact pollResult_timeout_full uncensoredProvider o f hN hpend
  · intro f o hpend hN
    exact pollResult_timeout_full fluxProvider o f hN hpend
  · intro f o hpend hN
    exact pollResult_timeout_full wanProvider o f hN hpend

/-- Witness for C1 at concrete inputs: always-pending responses with
`maxAttempts = 2` make exactly two fetches in each of the three loops. -/
theorem C1_timeout_exactness_witness :
    fetchCount (uncensoredPoll ⟨some 7, some 2, true⟩ (fun _ => uncPending)).2 = 2 ∧
    fetchCount (fluxPoll ⟨some 7, some 2, true⟩ (fun _ => fluxPending)).2 = 2 ∧
    fetchCount (wanPoll ⟨some 7, some 2, true⟩ (fun _ => wanPendingR)).2 = 2 := by
  have h := C1_timeout_exactness
  have hU : ∀ k : Nat, uncPending.status ≠ "success" ∧ uncPending.status ≠ "failed" :=
    fun _ => ⟨by decide, by decide⟩
  have hF : ∀ k : Nat, fluxPending.status ≠ "Ready" ∧ fluxPending.status ≠ "Failed" :=
    fun _ => ⟨by decide, by decide⟩
  have hW : ∀ k : Nat, wanStatus wanPendingR ≠ "SUCCEEDED" ∧ wanStatus wanPendingR ≠ "FAILED" :=
    fun _ => ⟨by decide, by decide⟩
  exact ⟨(h.1 (fun _ => uncPending) ⟨some 7, some 2, true⟩ hU (by decide)).2.1,
    (h.2.1 (fun _ => fluxPending) ⟨some 7, some 2, true⟩ hF (by decide)).2.1,
    (h.2.2 (fun _ => wanPendingR) ⟨some 7, some 2, true⟩ hW (by decide)).2.1⟩

/-- C4: if the `k`-th status check (with `k` below the resolved budget)
is the first to report success, each loop makes exactly `k` `getResult`
calls, sleeps only between the first `k` attempts (`k - 1` sleeps, none
after the `k`-th call), and returns that response. -/
theorem C4_short_circuit_on_success :
    (∀ (f : Nat → UncensoredResultResponse) (o : PollingOptions) (k : Nat),
      1 ≤ k → k < o.maxAttempts.getD 60 →
      (∀ j, 1 ≤ j → j < k → (f j).status ≠ "success" ∧ (f j).status ≠ "failed") →
      (f k).status = "success" →
      uncensoredPoll o f =
        (PollOutcome.ok (f k),
          sleptBlocks uncensoredProvider f o.onStatusUpdate (o.interval.getD 3000)
            1 (k - 1) ++ attemptEvents uncensoredProvider f o.onStatusUpdate k) ∧
      fetchCount (uncensoredPoll o f).2 = k ∧
      sleepList (uncensoredPoll o f).2 =
        List.replicate (k - 1) (o.interval.getD 3000)) ∧
    (∀ (f : Nat → FluxResultResponse) (o : PollingOptions) (k : Nat),
      1 ≤ k → k < o.maxAttempts.getD 60 →
      (∀ j, 1 ≤ j → j < k → (f j).status ≠ "Ready" ∧ (f j).status ≠ "Failed") →
      (f k).status = "Ready" →
      fluxPoll o f =
        (PollOutcome.ok (f k),
          sleptBlocks fluxProvider f o.onStatusUpdate (o.interval.getD 3000)
            1 (k - 1) ++ attemptEvents fluxProvider f o.onStatusUpdate k) ∧
      fetchCount (fluxPoll o f).2 = k ∧
      sleepList (fluxPoll o f).2 =
        List.replicate (k - 1) (o.interval.getD 3000)) ∧
    (∀ (f : Nat → WanResultResponse) (o : PollingOptions) (k : Nat),
      1 ≤ k → k < o.maxAttempts.getD 120 →
      (∀ j, 1 ≤ j → j < k → wanStatus (f j) ≠ "SUCCEEDED" ∧ wanStatus (f j) ≠ "FAILED") →
      wanStatus (f k) = "SUCCEEDED" →
      wanPoll o f =
        (PollOutcome.ok (f k),
          sleptBlocks wanProvider f o.onStatusUpdate (o.interval.getD 5000)
            1 (k - 1) ++ attemptEvents wanProvider f o.onStatusUpdate k) ∧
      fetchCount (wanPoll o f).2 = k ∧
      sleepList (wanPoll o f).2 =
        List.replicate (k - 1) (o.interval.getD 5000)) := by
  refine ⟨?_, ?_, ?_⟩
  · intro f o k hk1 hkN hpre hs
    exact pollResult_succ_full uncensoredProvider o f k hk1 (Nat.le_of_lt hkN) hpre hs
  · intro f o k hk1 hkN hpre hs
    exact pollResult_succ_full fluxProvider o f k hk1 (Nat.le_of_lt hkN) hpre hs
  · intro f o k hk1 hkN hpre hs
    exact pollResult_succ_full wanProvider o f k hk1 (Nat.le_of_lt hkN) hpre hs

/-- Witness for C4 at concrete inputs: success first reported on attempt
2 of a budget of 5 stops each loop at exactly 2 fetches. -/
theorem C4_short_circuit_on_success_witness :
    fetchCount (uncensoredPoll ⟨some 7, some 5, true⟩
      (fun j => if j ≤ 1 then uncPending else uncSuccess)).2 = 2 ∧
    fetchCount (fluxPoll ⟨some 7, some 5, true⟩
      (fun j => if j ≤ 1 then fluxPending else fluxReady)).2 = 2 ∧
    fetchCount (wanPoll ⟨some 7, some 5, true⟩
      (fun j => if j ≤ 1 then wanPendingR else wanSucceededR)).2 = 2 := by
  have h := C4_short_circuit_on_success
  refine ⟨(h.1 (fun j => if j ≤ 1 then uncPending else uncSuccess)
      ⟨some 7, some 5, true⟩ 2 (by decide) (by decide) ?_ (by decide)).2.1,
    (h.2.1 (fun j => if j ≤ 1 then fluxPending else fluxReady)
      ⟨some 7, some 5, true⟩ 2 (by decide) (by decide) ?_ (by decide)).2.1,
    (h.2.2 (fun j => if j ≤ 1 then wanPendingR else wanSucceededR)
      ⟨some 7, some 5, true⟩ 2 (by decide) (by decide) ?_ (by decide)).2.1⟩
  all_goals
    intro j hj1 hj2
    have hj : j = 1 := by omega
    subst hj
    exact ⟨by decide, by decide⟩

/-- C2 counterexample: two failed UncensoredAI jobs that differ in every
provider-supplied field produce the identical, constant failure message
`UncensoredAI request failed: failed` — the message embeds only the
status literal, so it cannot carry a job's human-readable error detail
(the response shape has no such field). -/
theorem C2_message_constant_counterexample :
    (uncensoredPoll ⟨some 1, some 5, false⟩
        (fun _ => ⟨"req-A", "failed", "https://a.example/x"⟩)).1 =
      PollOutcome.genFailed "UncensoredAI request failed: failed" ∧
    (uncensoredPoll ⟨some 1, some 5, false⟩
        (fun _ => ⟨"req-B", "failed", "https://b.example/y"⟩)).1 =
      PollOutcome.genFailed "UncensoredAI request failed: failed" ∧
    (⟨"req-A", "failed", "https://a.example/x"⟩ : UncensoredResultResponse) ≠
      ⟨"req-B", "failed", "https://b.example/y"⟩ := by
  have hA := pollResult_fail_at uncensoredProvider ⟨some 1, some 5, false⟩
    (fun _ => ⟨"req-A", "failed", "https://a.example/x"⟩) 1 (by decide) (by decide)
    (fun j hj1 hj2 => absurd hj2 (by omega)) (by decide) (by decide)
  have hB := pollResult_fail_at uncensoredProvider ⟨some 1, some 5, false⟩
    (fun _ => ⟨"req-B", "failed", "https://b.example/y"⟩) 1 (by decide) (by decide)
    (fun j hj1 hj2 => absurd hj2 (by omega)) (by decide) (by decide)
  refine ⟨?_, ?_, by decide⟩
  · show (pollResult uncensoredProvider _ _).1 = _
    rw [hA]
    rfl
  · show (pollResult uncensoredProvider _ _).1 = _
    rw [hB]
    rfl

/-- C2 (amended): if the `k`-th status check is the first to report the
provider's failure literal, each loop stops after exactly `k` fetches
(no further call, no further sleep) and throws its generation-failed
error; for Flux the message carries `result.error || 'Unknown error'`
and for Wan `result.output?.message || 'Unknown error'`, while for
UncensoredAI the message embeds only the literal status string
`failed` — its result shape has no error-detail field. -/
theorem C2_fail_fast :
    (∀ (f : Nat → UncensoredResultResponse) (o : PollingOptions) (k : Nat),
      1 ≤ k → k ≤ o.maxAttempts.getD 60 →
      (∀ j, 1 ≤ j → j < k → (f j).status ≠ "success" ∧ (f j).status ≠ "failed") →
      (f k).status = "failed" →
      uncensoredPoll o f =
        (PollOutcome.genFailed "UncensoredAI request failed: failed",
          sleptBlocks uncensoredProvider f o.onStatusUpdate (o.interval.getD 3000)
            1 (k - 1) ++ attemptEvents uncensoredProvider f o.onStatusUpdate k) ∧
      fetchCount (uncensoredPoll o f).2 = k ∧
      sleepList (uncensoredPoll o f).2 =
        List.replicate (k - 1) (o.interval.getD 3000)) ∧
    (∀ (f : Nat → FluxResultResponse) (o : PollingOptions) (k : Nat),
      1 ≤ k → k ≤ o.maxAttempts.getD 60 →
      (∀ j, 1 ≤ j → j < k → (f j).status ≠ "Ready" ∧ (f j).status ≠ "Failed") →
      (f k).status = "Failed" →
      fluxPoll o f =
        (PollOutcome.genFailed ("Flux image generation failed: " ++ fluxErrorText (f k)),
          sleptBlocks fluxProvider f o.onStatusUpdate (o.interval.getD 3000)
            1 (k - 1) ++ attemptEvents fluxProvider f o.onStatusUpdate k) ∧
      fetchCount (fluxPoll o f).2 = k ∧
      sleepList (fluxPoll o f).2 =
        List.replicate (k - 1) (o.interval.getD 3000)) ∧
    (∀ (f : Nat → WanResultResponse) (o : PollingOptions) (k : Nat),
      1 ≤ k → k ≤ o.maxAttempts.getD 120 →
      (∀ j, 1 ≤ j → j < k → wanStatus (f j) ≠ "SUCCEEDED" ∧ wanStatus (f j) ≠ "FAILED") →
      wanStatus (f k) = "FAILED" →
      wanPoll o f =
        (PollOutcome.genFailed ("Wan video generation failed: " ++ wanMessage (f k)),
          sleptBlocks wanProvider f o.onStatusUpdate (o.interval.getD 5000)
            1 (k - 1) ++ attemptEvents wanProvider f o.onStatusUpdate k) ∧
      fetchCount (wanPoll o f).2 = k ∧
      sleepList (wanPoll o f).2 =
        List.replicate (k - 1) (o.interval.getD 5000)) := by
  refine ⟨?_, ?_, ?_⟩
  · intro f o k hk1 hkN hpre hf
    have hs : uncensoredProvider.rawStatus (f k) ≠ uncensoredProvider.succStatus := by
      show (f k).status ≠ "success"
      rw [hf]
      decide
    have h := pollResult_fail_full uncensoredProvider o f k hk1 hkN hpre hs hf
    refine ⟨?_, h.2.1, h.2.2⟩
    have hmsg : uncensoredProvider.failMsg (f k) =
        "UncensoredAI request failed: failed" := by
      show "UncensoredAI request failed: " ++ (f k).status = _
      rw [hf]
      rfl
    rw [← hmsg]
    exact h.1
  · intro f o k hk1 hkN hpre hf
    have hs : fluxProvider.rawStatus (f k) ≠ fluxProvider.succStatus := by
      show (f k).status ≠ "Ready"
      rw [hf]
      decide
    exact pollResult_fail_full fluxProvider o f k hk1 hkN hpre hs hf
  · intro f o k hk1 hkN hpre hf
    have hs : wanProvider.rawStatus (f k) ≠ wanProvider.succStatus := by
      show wanStatus (f k) ≠ "SUCCEEDED"
      rw [hf]
      decide
    exact pollResult_fail_full wanProvider o f k hk1 hkN hpre hs hf

/-- Witness for C2 (amended) at concrete inputs: failure first reported
on attempt 2 of a budget of 5 stops each loop at exactly 2 fetches. -/
theorem C2_fail_fast_witness :
    fetchCount (uncensoredPoll ⟨some 7, some 5, true⟩
      (fun j => if j ≤ 1 then uncPending else uncFailed)).2 = 2 ∧
    fetchCount (fluxPoll ⟨some 7, some 5, true⟩
      (fun j => if j ≤ 1 then fluxPending else fluxFailed)).2 = 2 ∧
    fetchCount (wanPoll ⟨some 7, some 5, true⟩
      (fun j => if j ≤ 1 then wanPendingR else wanFailedR)).2 = 2 := by
  have h := C2_fail_fast
  refine ⟨(h.1 (fun j => if j ≤ 1 then uncPending else uncFailed)
      ⟨some 7, some 5, true⟩ 2 (by decide) (by decide) ?_ (by decide)).2.1,
    (h.2.1 (fun j => if j ≤ 1 then fluxPending else fluxFailed)
      ⟨some 7, some 5, true⟩ 2 (by decide) (by decide) ?_ (by decide)).2.1,
    (h.2.2 (fun j => if j ≤ 1 then wanPendingR else wanFailedR)
      ⟨some 7, some 5, true⟩ 2 (by decide) (by decide) ?_ (by decide)).2.1⟩
  all_goals
    intro j hj1 hj2
    have hj : j = 1 := by omega
    subst hj
    exact ⟨by decide, by decide⟩

/-- C3 (code behavior at the failing input): an UncensoredAI job that
reports the declared Failed-bucket status `'error'` on every attempt is
treated as non-terminal — with `maxAttempts = 2` the loop fetches twice,
sleeps in between, and throws the timeout error instead of failing
immediately with a generation-failed error on attempt 1. -/
theorem C3_error_status_not_fail_fast :
    uncensoredPoll ⟨some 7, some 2, false⟩ (fun _ => uncError) =
      (PollOutcome.timedOut 2,
        [PollEvent.fetch 1, PollEvent.sleep 7, PollEvent.fetch 2]) := by
  have hpend : ∀ k : Nat, nonTerminal uncensoredProvider uncError :=
    fun _ => ⟨by decide, by decide⟩
  have h := pollResult_timeout uncensoredProvider ⟨some 7, some 2, false⟩
    (fun _ => uncError) (by decide) hpend
  show pollResult uncensoredProvider _ _ = _
  rw [h]
  rfl

/-- C5: with an observer supplied, a run of any of the three loops that
finishes at attempt `k` — first terminal status at `k`, or budget
exhausted at `k = maxAttempts` — invokes the observer exactly once per
attempt, in order `1, 2, …, k`, each time with that attempt's raw status
string (invoked inside the attempt, before the terminal-status checks,
as the trace equality shows each update directly after its fetch). -/
theorem C5_observer_fidelity :
    (∀ (f : Nat → UncensoredResultResponse) (o : PollingOptions) (k : Nat),
      o.onStatusUpdate = true →
      finishesAt uncensoredProvider f (o.maxAttempts.getD 60) k →
      updateList (uncensoredPoll o f).2 =
        (List.range' 1 k).map (fun j => ((f j).status, j)) ∧
      (uncensoredPoll o f).2 =
        sleptBlocks uncensoredProvider f o.onStatusUpdate (o.interval.getD 3000)
          1 (k - 1) ++ attemptEvents uncensoredProvider f o.onStatusUpdate k) ∧
    (∀ (f : Nat → FluxResultResponse) (o : PollingOptions) (k : Nat),
      o.onStatusUpdate = true →
      finishesAt fluxProvider f (o.maxAttempts.getD 60) k →
      updateList (fluxPoll o f).2 =
        (List.range' 1 k).map (fun j => ((f j).status, j)) ∧
      (fluxPoll o f).2 =
        sleptBlocks fluxProvider f o.onStatusUpdate (o.interval.getD 3000)
          1 (k - 1) ++ attemptEvents fluxProvider f o.onStatusUpdate k) ∧
    (∀ (f : Nat → WanResultResponse) (o : PollingOptions) (k : Nat),
      o.onStatusUpdate = true →
      finishesAt wanProvider f (o.maxAttempts.getD 120) k →
      updateList (wanPoll o f).2 =
        (List.range' 1 k).map (fun j => (wanStatus (f j), j)) ∧
      (wanPoll o f).2 =
        sleptBlocks wanProvider f o.onStatusUpdate (o.interval.getD 5000)
          1 (k - 1) ++ attemptEvents wanProvider f o.onStatusUpdate k) := by
  refine ⟨?_, ?_, ?_⟩
  · intro f o k hcb hfin
    exact pollResult_updates_full uncensoredProvider o f k hcb hfin
  · intro f o k hcb hfin
    exact pollResult_updates_full fluxProvider o f k hcb hfin
  · intro f o k hcb hfin
    exact pollResult_updates_full wanProvider o f k hcb hfin

/-- Witness for C5 at concrete inputs: a pending then successful run
reports raw statuses with attempt numbers 1 and 2, in order. -/
theorem C5_observer_fidelity_witness :
    updateList (uncensoredPoll ⟨some 7, some 5, true⟩
      (fun j => if j ≤ 1 then uncPending else uncSuccess)).2 =
      [("pending", 1), ("success", 2)] ∧
    updateList (fluxPoll ⟨some 7, some 5, true⟩
      (fun j => if j ≤ 1 then fluxPending else fluxReady)).2 =
      [("Pending", 1), ("Ready", 2)] ∧
    updateList (wanPoll ⟨some 7, some 5, true⟩
      (fun j => if j ≤ 1 then wanPendingR else wanSucceededR)).2 =
      [("PENDING", 1), ("SUCCEEDED", 2)] := by
  have h := C5_observer_fidelity
  have hpre1 : ∀ (j : Nat), 1 ≤ j → j < 2 → j = 1 := by omega
  refine ⟨?_, ?_, ?_⟩
  · have h1 := (h.1 (fun j => if j ≤ 1 then uncPending else uncSuccess)
      ⟨some 7, some 5, true⟩ 2 rfl
      ⟨by decide, by decide,
        fun j hj1 hj2 => by rw [hpre1 j hj1 hj2]; exact ⟨by decide, by decide⟩,
        Or.inl (fun hnt => hnt.1 (by decide))⟩).1
    rw [h1]
    rfl
  · have h1 := (h.2.1 (fun j => if j ≤ 1 then fluxPending else fluxReady)
      ⟨some 7, some 5, true⟩ 2 rfl
      ⟨by decide, by decide,
        fun j hj1 hj2 => by rw [hpre1 j hj1 hj2]; exact ⟨by decide, by decide⟩,
        Or.inl (fun hnt => hnt.1 (by decide))⟩).1
    rw [h1]
    rfl
  · have h1 := (h.2.2 (fun j => if j ≤ 1 then wanPendingR else wanSucceededR)
      ⟨some 7, some 5, true⟩ 2 rfl
      ⟨by decide, by decide,
        fun j hj1 hj2 => by rw [hpre1 j hj1 hj2]; exact ⟨by decide, by decide⟩,
        Or.inl (fun hnt => hnt.1 (by decide))⟩).1
    rw [h1]
    rfl

/-- C10: an explicitly passed `maxAttempts` below 1 (i.e. `0`) is kept by
the destructuring default — only an absent field gets the default — so
the loop body never runs in any of the three loops: no fetch, no observer
invocation, no sleep, and the timeout error carrying the given attempt
count is thrown immediately. -/
theorem C10_explicit_zero_maxAttempts :
    (∀ (f : Nat → UncensoredResultResponse) (o : PollingOptions) (m : Nat),
      o.maxAttempts = some m → m < 1 →
      uncensoredPoll o f = (PollOutcome.timedOut m, []) ∧
      fetchCount (uncensoredPoll o f).2 = 0 ∧
      updateList (uncensoredPoll o f).2 = [] ∧
      sleepList (uncensoredPoll o f).2 = []) ∧
    (∀ (f : Nat → FluxResultResponse) (o : PollingOptions) (m : Nat),
      o.maxAttempts = some m → m < 1 →
      fluxPoll o f = (PollOutcome.timedOut m, []) ∧
      fetchCount (fluxPoll o f).2 = 0 ∧
      updateList (fluxPoll o f).2 = [] ∧
      sleepList (fluxPoll o f).2 = []) ∧
    (∀ (f : Nat → WanResultResponse) (o : PollingOptions) (m : Nat),
      o.maxAttempts = some m → m < 1 →
      wanPoll o f = (PollOutcome.timedOut m, []) ∧
      fetchCount (wanPoll o f).2 = 0 ∧
      updateList (wanPoll o f).2 = [] ∧
      sleepList (wanPoll o f).2 = []) := by
  refine ⟨?_, ?_, ?_⟩
  · intro f o m hm hm1
    exact pollResult_zero_full uncensoredProvider o f m hm hm1
  · intro f o m hm hm1
    exact pollResult_zero_full fluxProvider o f m hm hm1
  · intro f o m hm hm1
    exact pollResult_zero_full wanProvider o f m hm hm1

/-! ### Stream decoder lemmas -/

theorem splitNl_ne_nil : ∀ l : List Char, splitNl l ≠ [] := by
  intro l
  cases l with
  | nil => simp [splitNl]
  | cons c cs =>
    simp only [splitNl]
    split
    · simp
    · split <;> simp

theorem getLastD_default_irrel (l : List (List Char)) (d1 d2 : List Char)
    (h : l ≠ []) : l.getLastD d1 = l.getLastD d2 := by
  cases l with
  | nil => exact absurd rfl h
  | cons a t => rw [List.getLastD_cons, List.getLastD_cons]

/-- The fragment after the last newline — the part `split('\n')` leaves
as the new buffer — never contains a newline. -/
theorem splitNl_last_no_newline : ∀ l : List Char, '\n' ∉ (splitNl l).getLastD [] := by
  intro l
  induction l with
  | nil => simp [splitNl, List.getLastD]
  | cons c cs ih =>
    simp only [splitNl]
    split
    · rw [List.getLastD_cons]
      exact ih
    · rename_i hc
      split
      · rename_i heq
        exact absurd heq (splitNl_ne_nil cs)
      · rename_i h t heq
        rw [List.getLastD_cons]
        cases t with
        | nil =>
          rw [heq] at ih
          rw [List.getLastD_cons] at ih
          simp only [List.getLastD] at ih ⊢
          intro hm
          rcases List.mem_cons.mp hm with h1 | h2
          · exact hc h1.symm
          · exact ih h2
        | cons b u =>
          rw [heq] at ih
          rw [List.getLastD_cons] at ih
          rw [getLastD_default_irrel (b :: u) (c :: h) h (by simp)]
          exact ih

/-- After processing any chunk, the carry-over buffer holds no newline:
every newline-terminated line has been consumed by the split. -/
theorem decodeStep_buffer_no_newline (st : DecodeState) (c : List Nat) :
    '\n' ∉ (decodeStep st c).2.buffer :=
  splitNl_last_no_newline (st.buffer ++ (utf8DecodeChunk st.pending c).1)

theorem decodeRun_buffer_no_newline :
    ∀ (chunks : List (List Nat)) (st : DecodeState),
    '\n' ∉ st.buffer → '\n' ∉ (decodeRun st chunks).2.buffer := by
  intro chunks
  induction chunks with
  | nil =>
    intro st h
    exact h
  | cons c cs ih =>
    intro st h
    show '\n' ∉ (decodeRun (decodeStep st c).2 cs).2.buffer
    exact ih _ (decodeStep_buffer_no_newline st c)

theorem releaseCount_append {α : Type} (a b : List (StreamAction α)) :
    releaseCount (a ++ b) = releaseCount a + releaseCount b := by
  induction a with
  | nil => simp [releaseCount]
  | cons x t ih => cases x <;> simp [releaseCount, ih] <;> omega

theorem releaseCount_map_yielded {α : Type} (l : List α) :
    releaseCount (l.map StreamAction.yielded) = 0 := by
  induction l with
  | nil => simp [releaseCount]
  | cons x t ih => simp [releaseCount, ih]

/-! ### Claim theorems for the stream decoder -/

/-- C6: the decoder's output is invariant under re-chunking.  Splitting
the newline-terminated `data: ` frame at every byte offset into two
chunks — and likewise for a frame whose payload holds a two-byte UTF-8
character, where a split can fall inside the character — yields exactly
the one event `JSON.parse` produces for that payload, identical to
decoding the frame as a single chunk; carried partial lines and partial
multi-byte sequences are never dropped or corrupted. -/
theorem C6_chunk_split_invariance {α : Type} (parse : List Char → Option α)
    (v w : α) (h1 : parse exJson = some v) (h2 : parse exJsonMB = some w) :
    (∀ i, i ≤ exBytes.length →
      decodeEvents parse [List.take i exBytes, List.drop i exBytes] = [v] ∧
      decodeEvents parse [List.take i exBytes, List.drop i exBytes] =
        decodeEvents parse [exBytes]) ∧
    (∀ i, i ≤ exBytesMB.length →
      decodeEvents parse [List.take i exBytesMB, List.drop i exBytesMB] = [w] ∧
      decodeEvents parse [List.take i exBytesMB, List.drop i exBytesMB] =
        decodeEvents parse [exBytesMB]) := by
  have hA : ∀ i, i ≤ exBytes.length →
      dataStrings [List.take i exBytes, List.drop i exBytes] = [exJson] := by
    decide
  have hA1 : dataStrings [exBytes] = [exJson] := by decide
  have hB : ∀ i, i ≤ exBytesMB.length →
      dataStrings [List.take i exBytesMB, List.drop i exBytesMB] = [exJsonMB] := by
    decide
  have hB1 : dataStrings [exBytesMB] = [exJsonMB] := by decide
  constructor
  · intro i hi
    constructor
    · simp [decodeEvents, hA i hi, h1]
    · simp [decodeEvents, hA i hi, hA1]
  · intro i hi
    constructor
    · simp [decodeEvents, hB i hi, h2]
    · simp [decodeEvents, hB i hi, hB1]

/-- Witness for C6 at concrete inputs: a split after byte 7 (inside the
JSON payload) and a split after byte 13 (inside the two-byte character
`é`) each still decode to exactly the one expected event. -/
theorem C6_chunk_split_invariance_witness :
    decodeEvents parseEx [List.take 7 exBytes, List.drop 7 exBytes] = [1] ∧
    decodeEvents parseEx [List.take 13 exBytesMB, List.drop 13 exBytesMB] = [2] := by
  have h := C6_chunk_split_invariance parseEx 1 2 (by decide) (by decide)
  exact ⟨(h.1 7 (by decide)).1, (h.2 13 (by decide)).1⟩

/-- C7: the decoder raises no error of its own.  A stream holding a
well-formed `data: ` line, then the line `data: \x7bnot json` (whose
payload `JSON.parse` rejects), then another well-formed `data: ` line
yields exactly the two well-formed events, in source order: the malformed
frame is skipped silently and does not stop iteration.  The embedding of
the decoder is a total function, surfacing no failure on any byte
stream. -/
theorem C7_malformed_frame_skipped {α : Type} (parse : List Char → Option α)
    (v w : α) (h1 : parse exJson = some v) (h2 : parse exJson2 = some w)
    (hbad : parse exBad = none) :
    decodeEvents parse [exStream7] = [v, w] := by
  have hd : dataStrings [exStream7] = [exJson, exBad, exJson2] := by decide
  simp [decodeEvents, hd, h1, h2, hbad]

/-- Witness for C7 at a concrete parse function. -/
theorem C7_malformed_frame_skipped_witness :
    decodeEvents parseEx [exStream7] = [1, 3] :=
  C7_malformed_frame_skipped parseEx 1 3 (by decide) (by decide) (by decide)

/-- C8: at end of stream, every newline-terminated line has already been
processed — after any chunk sequence the carry-over buffer holds no
newline — and a trailing partial line with no terminating newline is
discarded without yielding an event: the stream whose bytes end with the
unterminated `data: ` frame produces no event and not even a payload for
that fragment, whatever the parse function. -/
theorem C8_trailing_partial_discarded {α : Type} (parse : List Char → Option α) :
    (∀ chunks : List (List Nat), '\n' ∉ (decodeRun ⟨[], []⟩ chunks).2.buffer) ∧
    decodeEvents parse [exPartial] = [] ∧
    dataStrings [exPartial] = [] := by
  have hp : dataStrings [exPartial] = [] := by decide
  refine ⟨?_, ?_, hp⟩
  · intro chunks
    exact decodeRun_buffer_no_newline chunks ⟨[], []⟩ (by simp)
  · simp [decodeEvents, hp]

/-- C9: however the iteration of the decoded stream ends — the byte
stream completing, the consumer abandoning iteration after any number of
events, or the consumer raising — the trace contains exactly one
`releaseLock` of the underlying reader, and it comes after every
delivered event (the `finally` block around the read loop runs once on
every exit path). -/
theorem C9_release_exactly_once {α : Type} (parse : List Char → Option α)
    (chunks : List (List Nat)) (mode : ConsumerMode) :
    releaseCount (streamRun parse chunks mode) = 1 ∧
    (streamRun parse chunks mode).getLast? = some StreamAction.release := by
  constructor
  · show releaseCount (StreamAction.acquire :: (_ ++ [StreamAction.release])) = 1
    rw [show ∀ l : List (StreamAction α),
        releaseCount (StreamAction.acquire :: l) = releaseCount l from
        fun l => rfl]
    rw [releaseCount_append, releaseCount_map_yielded]
    rfl
  · show (StreamAction.acquire :: (_ ++ [StreamAction.release])).getLast? = _
    rw [← List.cons_append, List.getLast?_concat]

/-- Witness for C10 at concrete inputs: an explicit `maxAttempts := 0`
makes each loop throw the timeout error at once with an empty trace, even
when every response would have been successful. -/
theorem C10_explicit_zero_maxAttempts_witness :
    uncensoredPoll ⟨none, some 0, true⟩ (fun _ => uncSuccess) =
      (PollOutcome.timedOut 0, []) ∧
    fluxPoll ⟨none, some 0, true⟩ (fun _ => fluxReady) =
      (PollOutcome.timedOut 0, []) ∧
    wanPoll ⟨none, some 0, true⟩ (fun _ => wanSucceededR) =
      (PollOutcome.timedOut 0, []) := by
  have h := C10_explicit_zero_maxAttempts
  exact ⟨(h.1 (fun _ => uncSuccess) ⟨none, some 0, true⟩ 0 rfl (by decide)).1,
    (h.2.1 (fun _ => fluxReady) ⟨none, some 0, true⟩ 0 rfl (by decide)).1,
    (h.2.2 (fun _ => wanSucceededR) ⟨none, some 0, true⟩ 0 rfl (by decide)).1⟩

end SDK
